import Mathlib

/-!
Shallow embedding of the `windows-mic-manager` repository (crates
`mic-manager-rs` and `mic-engine-ffi`) together with proofs about the
claims on its behaviour.

Modelling conventions:
* Rust `f32` values are modelled as `ℚ`; the verified properties concern
  ordering, clamping and maxima, which the rational model captures.
* Windows COM and registry calls are modelled as explicit oracle values
  recording the outcome the OS returns; the surrounding Rust control flow
  is translated directly.
* `Instant` timestamps are milliseconds as `Nat`; a Rust comparison
  `t.elapsed() > Duration::from_millis(k)` becomes `k < now - t`.
* Rust `Result<T, E>` becomes `Except E T`; nullable pointers become
  `Option`.
-/

namespace MicManager

/-- Rust `f32::clamp(lo, hi)`: below `lo` gives `lo`, above `hi` gives
`hi`, otherwise the value itself. -/
def rustClamp (x lo hi : ℚ) : ℚ :=
  if x < lo then lo else if hi < x then hi else x

/-! ## Data model (`platform/registry.rs`, `audio/device.rs`) -/

/-- Window display mode (`WindowMode` in `platform/registry.rs`). -/
inductive WindowMode where
  | Flyout
  | Docked
  deriving DecidableEq

/-- `WindowMode::to_dword`: `Flyout` is stored as 0, `Docked` as 1. -/
def WindowMode.to_dword : WindowMode → Nat
  | .Flyout => 0
  | .Docked => 1

/-- `WindowMode::from_dword`: 1 decodes to `Docked`, anything else to
`Flyout`. -/
def WindowMode.from_dword (value : Nat) : WindowMode :=
  match value with
  | 1 => WindowMode.Docked
  | _ => WindowMode.Flyout

/-- User preferences persisted to the registry (`UserPreferences`). -/
structure UserPreferences where
  start_with_windows : Bool
  window_mode : WindowMode
  deriving DecidableEq

/-- Preferences error type (`PreferencesError`). -/
inductive PreferencesError where
  | RegistryAccess (msg : String)
  | ReadFailed (key : String)
  | WriteFailed (key : String)
  | InvalidValue (key : String)
  deriving DecidableEq

/-- Audio service error type (`AudioError` in `audio/device.rs`); the
opaque Windows HRESULT payloads are dropped. -/
inductive AudioError where
  | DeviceNotFound (device_id : String)
  | NoDefaultDevice
  | ComInitFailed
  | EnumerationFailed
  | SetDefaultFailed
  | VolumeNotAvailable
  | MeterNotAvailable
  | WindowsError
  | StringConversion (msg : String)
  deriving DecidableEq

/-- Audio format (`AudioFormat` in `audio/device.rs`). -/
structure AudioFormat where
  sample_rate : Nat
  bit_depth : Nat
  channels : Nat
  deriving DecidableEq

/-- Audio device role (`DeviceRole` in `audio/device.rs`). -/
inductive DeviceRole where
  | Console
  | Multimedia
  | Communications
  deriving DecidableEq

/-- Windows device state flags (`DeviceState` in `audio/device.rs`). -/
inductive DeviceState where
  | Active
  | Disabled
  | NotPresent
  | Unplugged
  deriving DecidableEq

/-- A microphone device with its current state (`MicrophoneDevice` in
`audio/device.rs`). -/
structure MicrophoneDevice where
  id : String
  name : String
  is_default : Bool
  is_default_communication : Bool
  is_muted : Bool
  volume_level : ℚ
  audio_format : Option AudioFormat
  input_level : ℚ
  peak_hold : ℚ
  deriving DecidableEq

/-- Events from the Windows audio system (`DeviceEvent` in
`audio/device.rs`). -/
inductive DeviceEvent where
  | DeviceAdded (device_id : String)
  | DeviceRemoved (device_id : String)
  | DeviceStateChanged (device_id : String) (new_state : DeviceState)
  | DefaultDeviceChanged (role : DeviceRole) (device_id : Option String)
  | VolumeChanged (device_id : String) (volume_level : ℚ) (is_muted : Bool)
  | FormatChanged (device_id : String) (format : AudioFormat)
  deriving DecidableEq

/-! ## Registry preferences (`platform/registry.rs`)

The registry itself is the OS; it is modelled as an oracle describing what
each Win32 registry call would return. -/

/-- Registry oracle: whether the application key opens, the `WindowMode`
dword if `RegQueryValueExW` succeeds on it, whether the Run key opens, and
the size reported for the startup value if its query succeeds. -/
structure RegistryState where
  appKeyOpens : Bool
  windowModeValue : Option Nat
  runKeyOpens : Bool
  runValueSize : Option Nat

/-- `RegistryPreferences::load_window_mode`: a key that fails to open or a
value that fails to query yields `Ok(WindowMode::default())`. -/
def load_window_mode (r : RegistryState) : Except PreferencesError WindowMode :=
  if r.appKeyOpens = false then Except.ok WindowMode.Flyout
  else
    match r.windowModeValue with
    | some data => Except.ok (WindowMode.from_dword data)
    | none => Except.ok WindowMode.Flyout

/-- `RegistryPreferences::is_startup_enabled`: a Run key that fails to open
yields `Ok(false)`; otherwise the result is `Ok(query succeeded && size > 0)`. -/
def is_startup_enabled (r : RegistryState) : Except PreferencesError Bool :=
  if r.runKeyOpens = false then Except.ok false
  else
    Except.ok (match r.runValueSize with
      | some data_size => decide (0 < data_size)
      | none => false)

/-- `RegistryPreferences::load`: reads the window mode with
`unwrap_or_default()` and the startup flag with `unwrap_or(false)`. -/
def load (r : RegistryState) : Except PreferencesError UserPreferences :=
  let window_mode := match load_window_mode r with
    | Except.ok m => m
    | Except.error _ => WindowMode.Flyout
  let start_with_windows := match is_startup_enabled r with
    | Except.ok b => b
    | Except.error _ => false
  Except.ok { start_with_windows := start_with_windows, window_mode := window_mode }

/-! ## Claim C8 -/

/-- C8: the registry encoding of `WindowMode` round-trips
(`from_dword (to_dword m) = m`), and every dword other than 1 decodes to
`Flyout`. -/
theorem c8_window_mode_roundtrip :
    (∀ m : WindowMode, WindowMode.from_dword m.to_dword = m) ∧
    (∀ v : Nat, v ≠ 1 → WindowMode.from_dword v = WindowMode.Flyout) := by
  constructor
  · intro m; cases m <;> rfl
  · intro v hv
    cases v with
    | zero => rfl
    | succ n =>
      cases n with
      | zero => exact absurd rfl hv
      | succ m => rfl

/-- Witness for C8 at concrete inputs. -/
theorem c8_window_mode_roundtrip_witness :
    WindowMode.from_dword (WindowMode.to_dword WindowMode.Docked) = WindowMode.Docked ∧
    (7 ≠ 1 ∧ WindowMode.from_dword 7 = WindowMode.Flyout) :=
  ⟨c8_window_mode_roundtrip.1 WindowMode.Docked, by decide,
    c8_window_mode_roundtrip.2 7 (by decide)⟩

/-! ## Claim C3 -/

/-- C3: `RegistryPreferences::load` returns `Ok` for every registry state,
and when the application key, the `WindowMode` value, the Run key, or the
startup value cannot be read, it yields the defaults `WindowMode::Flyout`
and `start_with_windows = false`. -/
theorem c3_load_total_with_defaults (r : RegistryState) :
    (∃ p, load r = Except.ok p) ∧
    (∀ p, load r = Except.ok p →
      ((r.appKeyOpens = false ∨ r.windowModeValue = none) →
        p.window_mode = WindowMode.Flyout) ∧
      ((r.runKeyOpens = false ∨ r.runValueSize = none) →
        p.start_with_windows = false)) := by
  obtain ⟨ak, wv, rk, rs⟩ := r
  refine ⟨⟨_, rfl⟩, ?_⟩
  intro p hp
  cases ak <;> cases rk <;> cases wv <;> cases rs <;>
    simp_all [load, load_window_mode, is_startup_enabled] <;>
    simp [← hp]

/-- Witness for C3: a registry where nothing is readable loads as `Ok`
with both defaults. -/
theorem c3_load_total_with_defaults_witness :
    load ⟨false, none, false, none⟩ = Except.ok ⟨false, WindowMode.Flyout⟩ ∧
    ({ start_with_windows := false, window_mode := WindowMode.Flyout :
        UserPreferences }).window_mode = WindowMode.Flyout ∧
    ({ start_with_windows := false, window_mode := WindowMode.Flyout :
        UserPreferences }).start_with_windows = false := by
  refine ⟨rfl, ?_, ?_⟩
  · exact ((c3_load_total_with_defaults ⟨false, none, false, none⟩).2 _ rfl).1
      (Or.inl rfl)
  · exact ((c3_load_total_with_defaults ⟨false, none, false, none⟩).2 _ rfl).2
      (Or.inl rfl)

/-! ## Volume controller (`audio/volume.rs`)

`IAudioEndpointVolume` is a COM object; it is modelled as a record holding
the endpoint's mute state and master volume scalar together with flags
saying which COM calls fail. -/

/-- Model of the `IAudioEndpointVolume` endpoint behind a
`VolumeController`. -/
structure EndpointVolume where
  mute : Bool
  volume : ℚ
  getMuteFails : Bool
  setMuteFails : Bool
  setVolumeFails : Bool
  deriving DecidableEq

/-- `VolumeController::get_mute`: `GetMute` mapped through
`AudioError::WindowsError`. -/
def VolumeController.get_mute (e : EndpointVolume) : Except AudioError Bool :=
  if e.getMuteFails then Except.error AudioError.WindowsError
  else Except.ok e.mute

/-- `VolumeController::set_mute`: `SetMute` mapped through
`AudioError::WindowsError`; on success the endpoint records the new mute
state. -/
def VolumeController.set_mute (muted : Bool) (e : EndpointVolume) :
    Except AudioError Unit × EndpointVolume :=
  if e.setMuteFails then (Except.error AudioError.WindowsError, e)
  else (Except.ok (), { e with mute := muted })

/-- `VolumeController::toggle_mute`: reads the mute state, negates it,
writes it back, and returns the new state; each step propagates its
error with `?`. -/
def VolumeController.toggle_mute (e : EndpointVolume) :
    Except AudioError Bool × EndpointVolume :=
  match VolumeController.get_mute e with
  | Except.error err => (Except.error err, e)
  | Except.ok current =>
    let new_state := !current
    match VolumeController.set_mute new_state e with
    | (Except.error err, e2) => (Except.error err, e2)
    | (Except.ok _, e2) => (Except.ok new_state, e2)

/-- `SetMasterVolumeLevelScalar` on the modelled endpoint: on success the
endpoint records the level passed in. -/
def setMasterVolumeLevelScalar (level : ℚ) (e : EndpointVolume) :
    Except AudioError Unit × EndpointVolume :=
  if e.setVolumeFails then (Except.error AudioError.WindowsError, e)
  else (Except.ok (), { e with volume := level })

/-- `VolumeController::set_volume`: clamps the level to `[0, 1]` and
passes the clamped value to `SetMasterVolumeLevelScalar`. -/
def VolumeController.set_volume (level : ℚ) (e : EndpointVolume) :
    Except AudioError Unit × EndpointVolume :=
  let level := rustClamp level 0 1
  setMasterVolumeLevelScalar level e

/-! ## Claim C5 -/

/-- C5: when both COM calls succeed, `toggle_mute` returns `Ok` of the
negated read state and leaves the endpoint holding that state; when
reading or writing fails, the error is propagated, no new mute state is
reported, and the endpoint keeps its old mute state. -/
theorem c5_toggle_mute (e : EndpointVolume) :
    (e.getMuteFails = false → e.setMuteFails = false →
      VolumeController.toggle_mute e =
        (Except.ok (!e.mute), { e with mute := !e.mute })) ∧
    (e.getMuteFails = true ∨ e.setMuteFails = true →
      (VolumeController.toggle_mute e).1 = Except.error AudioError.WindowsError ∧
      (VolumeController.toggle_mute e).2.mute = e.mute) := by
  obtain ⟨m, v, gf, sf, vf⟩ := e
  cases gf <;> cases sf <;>
    simp [VolumeController.toggle_mute, VolumeController.get_mute,
      VolumeController.set_mute]

/-- Witness for C5: toggling an unmuted healthy endpoint mutes it. -/
theorem c5_toggle_mute_witness :
    VolumeController.toggle_mute ⟨false, 1, false, false, false⟩ =
      (Except.ok true, ⟨true, 1, false, false, false⟩) :=
  (c5_toggle_mute ⟨false, 1, false, false, false⟩).1 rfl rfl

/-! ## Claim C7 (with `AppState::update_device_volume` added further below) -/

/-- Replace the first element of the list satisfying `p` by its image
under `f` (the effect of Rust `iter_mut().find(p)` followed by a field
assignment). -/
def updateFirst (p : α → Bool) (f : α → α) : List α → List α
  | [] => []
  | x :: xs => if p x then f x :: xs else x :: updateFirst p f xs

/-! ## Policy config (`audio/policy.rs`)

`SetDefaultEndpoint` is a raw COM vtable call; it is modelled as an oracle
`String → ERole → Bool` telling whether the HRESULT of the call for a
device id and role is a success.  Each modelled operation also returns the
list of `SetDefaultEndpoint` invocations it performed, in order. -/

/-- Windows `ERole` values used through `IPolicyConfig`. -/
inductive ERole where
  | eConsole
  | eMultimedia
  | eCommunications
  deriving DecidableEq

/-- Role translation inside `PolicyConfig::set_default_device`. -/
def eroleOf : DeviceRole → ERole
  | .Console => ERole.eConsole
  | .Multimedia => ERole.eMultimedia
  | .Communications => ERole.eCommunications

/-- `PolicyConfig::set_default_device`: translates the role, performs one
`SetDefaultEndpoint` call, and fails with a `StringConversion` error when
the HRESULT is a failure.  The second component is the call trace. -/
def PolicyConfig.set_default_device (api : String → ERole → Bool)
    (device_id : String) (role : DeviceRole) :
    Except AudioError Unit × List (String × ERole) :=
  let erole := eroleOf role
  if api device_id erole then (Except.ok (), [(device_id, erole)])
  else (Except.error (AudioError.StringConversion "SetDefaultEndpoint failed"),
    [(device_id, erole)])

/-- `PolicyConfig::set_default_device_all_roles`: sets the Console role,
propagates a failure with `?`, then sets the Communications role. -/
def PolicyConfig.set_default_device_all_roles (api : String → ERole → Bool)
    (device_id : String) : Except AudioError Unit × List (String × ERole) :=
  match PolicyConfig.set_default_device api device_id DeviceRole.Console with
  | (Except.error e, calls) => (Except.error e, calls)
  | (Except.ok _, calls1) =>
    match PolicyConfig.set_default_device api device_id DeviceRole.Communications with
    | (res, calls2) => (res, calls1 ++ calls2)

/-! ## Claim C4 -/

/-- Counterexample to C4: when the Console call fails,
`set_default_device_all_roles` invokes `SetDefaultEndpoint` exactly once,
not exactly twice. -/
theorem c4_counterexample :
    (PolicyConfig.set_default_device_all_roles (fun _ _ => false) "dev").2 =
      [("dev", ERole.eConsole)] ∧
    (PolicyConfig.set_default_device_all_roles (fun _ _ => false) "dev").2.length ≠ 2 := by
  exact ⟨rfl, by decide⟩

/-- C4 (amended): `set_default_device` maps `Console`, `Multimedia` and
`Communications` to `eConsole`, `eMultimedia` and `eCommunications` and
performs exactly the one corresponding `SetDefaultEndpoint` call;
`set_default_device_all_roles` calls `SetDefaultEndpoint` first for
Console and then, only if that call succeeded, for Communications — never
for Multimedia — and returns `Ok` iff both calls were made and both
succeeded. -/
theorem c4_set_default_all_roles (api : String → ERole → Bool) (device_id : String) :
    (eroleOf DeviceRole.Console = ERole.eConsole ∧
      eroleOf DeviceRole.Multimedia = ERole.eMultimedia ∧
      eroleOf DeviceRole.Communications = ERole.eCommunications) ∧
    (∀ role, (PolicyConfig.set_default_device api device_id role).2 =
      [(device_id, eroleOf role)]) ∧
    (api device_id ERole.eConsole = true →
      (PolicyConfig.set_default_device_all_roles api device_id).2 =
        [(device_id, ERole.eConsole), (device_id, ERole.eCommunications)]) ∧
    (api device_id ERole.eConsole = false →
      (PolicyConfig.set_default_device_all_roles api device_id).2 =
        [(device_id, ERole.eConsole)] ∧
      (PolicyConfig.set_default_device_all_roles api device_id).1 ≠ Except.ok ()) ∧
    (∀ c ∈ (PolicyConfig.set_default_device_all_roles api device_id).2,
      c.2 ≠ ERole.eMultimedia) ∧
    ((PolicyConfig.set_default_device_all_roles api device_id).1 = Except.ok () ↔
      api device_id ERole.eConsole = true ∧
      api device_id ERole.eCommunications = true) := by
  have hc : ∀ role, (PolicyConfig.set_default_device api device_id role).2 =
      [(device_id, eroleOf role)] := by
    intro role
    simp only [PolicyConfig.set_default_device]
    split <;> rfl
  refine ⟨⟨rfl, rfl, rfl⟩, hc, ?_, ?_, ?_, ?_⟩ <;>
    unfold PolicyConfig.set_default_device_all_roles PolicyConfig.set_default_device <;>
    cases h1 : api device_id ERole.eConsole <;>
    cases h2 : api device_id ERole.eCommunications <;>
    simp [eroleOf, h1, h2]

/-- Witness for C4 (amended): with an always-succeeding API the Console
call is made first and then the Communications call. -/
theorem c4_set_default_all_roles_witness :
    (PolicyConfig.set_default_device_all_roles (fun _ _ => true) "mic").2 =
      [("mic", ERole.eConsole), ("mic", ERole.eCommunications)] :=
  (c4_set_default_all_roles (fun _ _ => true) "mic").2.2.1 rfl

/-! ## Application state (`app.rs`)

The `Instant`, preference and error-message fields of the Rust struct do
not take part in the verified claims; the device list, the two default
ids, the window mode and the flyout visibility flag are modelled.  Tray
calls (`set_tooltip`, `set_icon`) do not touch `AppState` and are
omitted. -/

/-- Main application state (`AppState` in `app.rs`). -/
structure AppState where
  devices : List MicrophoneDevice
  default_device_id : Option String
  default_communication_device_id : Option String
  window_mode : WindowMode
  flyout_visible : Bool
  deriving DecidableEq

/-- Oracle for the `DeviceEnumerator`: the results the Windows MMDevice
API returns for `get_devices` and `get_default_device_id` during one
refresh. -/
structure Enumerator where
  get_devices : Except AudioError (List MicrophoneDevice)
  get_default_device_id : DeviceRole → Except AudioError (Option String)

/-- `AppState::refresh_devices`: replaces the device list, re-reads both
default ids, then recomputes every device's `is_default` and
`is_default_communication` flags.  Each `?` point is modelled by
returning the error together with the partially updated state. -/
def AppState.refresh_devices (s : AppState) (enumerator : Enumerator) :
    AppState × Option AudioError :=
  match enumerator.get_devices with
  | Except.error e => (s, some e)
  | Except.ok devs =>
    let s := { s with devices := devs }
    match enumerator.get_default_device_id DeviceRole.Console with
    | Except.error e => (s, some e)
    | Except.ok dId =>
      let s := { s with default_device_id := dId }
      match enumerator.get_default_device_id DeviceRole.Communications with
      | Except.error e => (s, some e)
      | Except.ok cId =>
        let s := { s with default_communication_device_id := cId }
        let s := { s with devices := s.devices.map (fun device =>
          { device with
            is_default :=
              (s.default_device_id.map (fun id => id == device.id)).getD false,
            is_default_communication :=
              (s.default_communication_device_id.map
                (fun id => id == device.id)).getD false }) }
        (s, none)

/-- `AppState::get_default_device`. -/
def AppState.get_default_device (s : AppState) : Option MicrophoneDevice :=
  s.default_device_id.bind (fun id => s.devices.find? (fun d => d.id == id))

/-- `AppState::is_default_muted`. -/
def AppState.is_default_muted (s : AppState) : Bool :=
  (s.get_default_device.map (fun d => d.is_muted)).getD false

/-- `AppState::get_tooltip`. -/
def AppState.get_tooltip (s : AppState) : String :=
  match s.get_default_device with
  | some device =>
    if device.is_muted then device.name ++ " (Muted)" else device.name
  | none => "No microphone"

/-- `AppState::update_device_mute`. -/
def AppState.update_device_mute (s : AppState) (device_id : String)
    (muted : Bool) : AppState :=
  let devices := updateFirst (fun d => d.id == device_id)
    (fun d => { d with is_muted := muted }) s.devices
  { s with devices := devices }

/-- `AppState::update_device_volume`: stores `volume.clamp(0.0, 1.0)` into
the first device with the given id. -/
def AppState.update_device_volume (s : AppState) (device_id : String)
    (volume : ℚ) : AppState :=
  let devices := updateFirst (fun d => d.id == device_id)
    (fun d => { d with volume_level := rustClamp volume 0 1 }) s.devices
  { s with devices := devices }

/-- Per-device update performed by `AppState::update_device_level`: store
the clamped level into `input_level` and raise `peak_hold` to the raw
level when the raw level exceeds it. -/
def levelUpdateFn (level : ℚ) (device : MicrophoneDevice) : MicrophoneDevice :=
  let device := { device with input_level := rustClamp level 0 1 }
  if device.peak_hold < level then { device with peak_hold := level } else device

/-- `AppState::update_device_level`. -/
def AppState.update_device_level (s : AppState) (device_id : String)
    (level : ℚ) : AppState :=
  let devices := updateFirst (fun d => d.id == device_id)
    (levelUpdateFn level) s.devices
  { s with devices := devices }

/-- Per-device decay performed by `AppState::decay_peak_holds`. -/
def decayFn (decay_rate : ℚ) (device : MicrophoneDevice) : MicrophoneDevice :=
  if device.input_level < device.peak_hold then
    { device with
      peak_hold := max (device.peak_hold - decay_rate) device.input_level }
  else device

/-- `AppState::decay_peak_holds`. -/
def AppState.decay_peak_holds (s : AppState) (decay_rate : ℚ) : AppState :=
  { s with devices := s.devices.map (decayFn decay_rate) }

/-- `AppState::handle_device_event`: tray updates do not touch `AppState`
and are omitted; the second component is the error of the internal
`refresh_devices` call, `none` when it succeeded or no refresh ran. -/
def AppState.handle_device_event (s : AppState) (event : DeviceEvent)
    (enumerator : Enumerator) : AppState × Option AudioError :=
  match event with
  | .DeviceAdded _ => s.refresh_devices enumerator
  | .DeviceRemoved _ => s.refresh_devices enumerator
  | .DefaultDeviceChanged role device_id =>
    let s := match role with
      | DeviceRole.Console => { s with default_device_id := device_id }
      | DeviceRole.Communications =>
        { s with default_communication_device_id := device_id }
      | _ => s
    s.refresh_devices enumerator
  | .VolumeChanged device_id volume_level is_muted =>
    ((s.update_device_volume device_id volume_level).update_device_mute
      device_id is_muted, none)
  | .FormatChanged device_id format =>
    let devices := updateFirst (fun d => d.id == device_id)
      (fun d => { d with audio_format := some format }) s.devices
    ({ s with devices := devices }, none)
  | .DeviceStateChanged _ _ => s.refresh_devices enumerator

/-- Whether a `DeviceEvent` triggers an internal `refresh_devices` call in
`AppState::handle_device_event`. -/
def DeviceEvent.isRefreshing : DeviceEvent → Bool
  | .DeviceAdded _ => true
  | .DeviceRemoved _ => true
  | .DeviceStateChanged _ _ => true
  | .DefaultDeviceChanged _ _ => true
  | .VolumeChanged _ _ _ => false
  | .FormatChanged _ _ => false

/-! ## Claim C1 -/

/-- The consistency property of C1: a device's default flags agree with
the stored default ids. -/
def defaultFlagsConsistent (s : AppState) : Prop :=
  ∀ d ∈ s.devices,
    (d.is_default = true ↔ s.default_device_id = some d.id) ∧
    (d.is_default_communication = true ↔
      s.default_communication_device_id = some d.id)

theorem refresh_devices_consistent (s : AppState) (enumerator : Enumerator)
    (h : (s.refresh_devices enumerator).2 = none) :
    defaultFlagsConsistent (s.refresh_devices enumerator).1 := by
  unfold AppState.refresh_devices at h ⊢
  cases hd : enumerator.get_devices with
  | error e => simp [hd] at h
  | ok devs =>
    rw [hd] at h
    cases hc : enumerator.get_default_device_id DeviceRole.Console with
    | error e => simp [hc] at h
    | ok dId =>
      rw [hc] at h
      cases hm : enumerator.get_default_device_id DeviceRole.Communications with
      | error e => simp [hm] at h
      | ok cId =>
        dsimp only
        intro d hd
        simp only [List.mem_map] at hd
        obtain ⟨d0, _, rfl⟩ := hd
        constructor
        · cases dId with
          | none => simp
          | some i => simp [beq_iff_eq]
        · cases cId with
          | none => simp
          | some i => simp [beq_iff_eq]

/-- C1: after a successful `refresh_devices` — and therefore after
`handle_device_event` processes a `DeviceAdded`, `DeviceRemoved`,
`DefaultDeviceChanged` or `DeviceStateChanged` event whose internal
refresh succeeds — every device's `is_default` flag holds iff
`default_device_id` is its id, and likewise for the communication flag. -/
theorem c1_refresh_default_flags (s : AppState) (enumerator : Enumerator)
    (event : DeviceEvent) :
    ((s.refresh_devices enumerator).2 = none →
      defaultFlagsConsistent (s.refresh_devices enumerator).1) ∧
    (event.isRefreshing = true →
      (s.handle_device_event event enumerator).2 = none →
      defaultFlagsConsistent (s.handle_device_event event enumerator).1) := by
  refine ⟨refresh_devices_consistent s enumerator, ?_⟩
  intro hev h
  cases event with
  | DeviceAdded device_id =>
    simp only [AppState.handle_device_event] at h ⊢
    exact refresh_devices_consistent _ _ h
  | DeviceRemoved device_id =>
    simp only [AppState.handle_device_event] at h ⊢
    exact refresh_devices_consistent _ _ h
  | DeviceStateChanged device_id new_state =>
    simp only [AppState.handle_device_event] at h ⊢
    exact refresh_devices_consistent _ _ h
  | DefaultDeviceChanged role device_id =>
    cases role <;>
      simp only [AppState.handle_device_event] at h ⊢ <;>
      exact refresh_devices_consistent _ _ h
  | VolumeChanged device_id volume_level is_muted =>
    exact absurd hev (by simp [DeviceEvent.isRefreshing])
  | FormatChanged device_id format =>
    exact absurd hev (by simp [DeviceEvent.isRefreshing])

/-- Concrete enumerator used by the C1 witness: two devices, the second
one the Console default, no Communications default. -/
def c1Enumerator : Enumerator where
  get_devices := Except.ok
    [⟨"a", "Mic A", false, false, false, 1, none, 0, 0⟩,
     ⟨"b", "Mic B", false, false, false, 1, none, 0, 0⟩]
  get_default_device_id := fun role =>
    match role with
    | DeviceRole.Console => Except.ok (some "b")
    | _ => Except.ok none

/-- Initial state used by the C1 witness. -/
def c1State : AppState := ⟨[], none, none, WindowMode.Flyout, false⟩

/-- Witness for C1 at a concrete enumerator, state and event. -/
theorem c1_refresh_default_flags_witness :
    defaultFlagsConsistent
      (c1State.handle_device_event (DeviceEvent.DeviceAdded "a") c1Enumerator).1 :=
  (c1_refresh_default_flags c1State c1Enumerator
    (DeviceEvent.DeviceAdded "a")).2 rfl rfl

/-! ## Claims C6 and C7 -/

theorem mem_updateFirst {p : α → Bool} {f : α → α} {l : List α} {x : α}
    (hx : x ∈ updateFirst p f l) : x ∈ l ∨ ∃ y ∈ l, x = f y := by
  induction l with
  | nil => exact absurd hx (by simp [updateFirst])
  | cons a as ih =>
    simp only [updateFirst] at hx
    split at hx
    · rcases List.mem_cons.mp hx with h | h
      · exact Or.inr ⟨a, List.mem_cons_self a as, h⟩
      · exact Or.inl (List.mem_cons_of_mem a h)
    · rcases List.mem_cons.mp hx with h | h
      · exact Or.inl (h ▸ List.mem_cons_self a as)
      · rcases ih h with h2 | ⟨y, hy, hxy⟩
        · exact Or.inl (List.mem_cons_of_mem a h2)
        · exact Or.inr ⟨y, List.mem_cons_of_mem a hy, hxy⟩

/-- The strengthened level-meter invariant: every device has a
nonnegative input level bounded by its peak hold. -/
def levelsWellFormed (s : AppState) : Prop :=
  ∀ d ∈ s.devices, 0 ≤ d.input_level ∧ d.input_level ≤ d.peak_hold

instance (s : AppState) : Decidable (levelsWellFormed s) := by
  unfold levelsWellFormed; infer_instance

theorem levelUpdateFn_wf (level : ℚ) (d : MicrophoneDevice)
    (h0 : 0 ≤ d.input_level) (h1 : d.input_level ≤ d.peak_hold) :
    0 ≤ (levelUpdateFn level d).input_level ∧
    (levelUpdateFn level d).input_level ≤ (levelUpdateFn level d).peak_hold := by
  have hpk : 0 ≤ d.peak_hold := le_trans h0 h1
  simp only [levelUpdateFn, rustClamp]
  split_ifs <;> constructor <;> simp_all <;> linarith

theorem decayFn_wf (decay_rate : ℚ) (d : MicrophoneDevice)
    (h0 : 0 ≤ d.input_level) (h1 : d.input_level ≤ d.peak_hold) :
    0 ≤ (decayFn decay_rate d).input_level ∧
    (decayFn decay_rate d).input_level ≤ (decayFn decay_rate d).peak_hold := by
  simp only [decayFn]
  split_ifs <;> constructor <;> simp_all [le_max_iff]

/-- Counterexample to C6 as stated: for a device with negative levels the
bare invariant `input_level ≤ peak_hold` holds before
`update_device_level` but not after it (the stored level is clamped up to
0 while the peak hold stays negative). -/
theorem c6_counterexample :
    (∀ d ∈ (⟨[⟨"a", "Mic", false, false, false, 1, none, -2, -1⟩],
        none, none, WindowMode.Flyout, false⟩ : AppState).devices,
      d.input_level ≤ d.peak_hold) ∧
    ∃ d ∈ ((⟨[⟨"a", "Mic", false, false, false, 1, none, -2, -1⟩],
        none, none, WindowMode.Flyout, false⟩ :
          AppState).update_device_level "a" (-1)).devices,
      ¬ d.input_level ≤ d.peak_hold := by
  decide

/-- C6 (amended): for devices satisfying the invariant
`0 ≤ input_level ≤ peak_hold` — which all devices produced by the program
satisfy, levels being clamped to `[0, 1]` — both `update_device_level`
and, for a nonnegative decay rate, `decay_peak_holds` preserve it;
`update_device_level` stores the level clamped to `[0, 1]` into
`input_level` and raises `peak_hold` to the unclamped level exactly when
it exceeds the current peak hold; `decay_peak_holds` lowers `peak_hold`
by at most `decay_rate`, never below `input_level` and never raising it,
and leaves devices with `peak_hold ≤ input_level` unchanged. -/
theorem c6_level_peak_invariant (s : AppState) (device_id : String)
    (level decay_rate : ℚ) :
    (levelsWellFormed s →
      levelsWellFormed (s.update_device_level device_id level)) ∧
    (levelsWellFormed s → 0 ≤ decay_rate →
      levelsWellFormed (s.decay_peak_holds decay_rate)) ∧
    (∀ d : MicrophoneDevice,
      (levelUpdateFn level d).input_level = rustClamp level 0 1 ∧
      (d.peak_hold < level → (levelUpdateFn level d).peak_hold = level) ∧
      (¬ d.peak_hold < level →
        (levelUpdateFn level d).peak_hold = d.peak_hold)) ∧
    (∀ d : MicrophoneDevice,
      (d.input_level < d.peak_hold →
        (decayFn decay_rate d).peak_hold =
          max (d.peak_hold - decay_rate) d.input_level ∧
        d.peak_hold - decay_rate ≤ (decayFn decay_rate d).peak_hold ∧
        d.input_level ≤ (decayFn decay_rate d).peak_hold ∧
        (0 ≤ decay_rate →
          (decayFn decay_rate d).peak_hold ≤ d.peak_hold)) ∧
      (¬ d.input_level < d.peak_hold → decayFn decay_rate d = d)) := by
  refine ⟨?_, ?_, ?_, ?_⟩
  · intro hwf d hd
    rcases mem_updateFirst hd with h | ⟨y, hy, rfl⟩
    · exact hwf d h
    · exact levelUpdateFn_wf level y (hwf y hy).1 (hwf y hy).2
  · intro hwf hrate d hd
    simp only [AppState.decay_peak_holds, List.mem_map] at hd
    obtain ⟨y, hy, rfl⟩ := hd
    exact decayFn_wf decay_rate y (hwf y hy).1 (hwf y hy).2
  · intro d
    refine ⟨?_, ?_, ?_⟩ <;> simp only [levelUpdateFn] <;> split <;>
      first | rfl | (intro h; rfl) | (intro h; simp_all)
  · intro d
    constructor
    · intro h
      have e1 : (decayFn decay_rate d).peak_hold =
          max (d.peak_hold - decay_rate) d.input_level := by
        simp [decayFn, if_pos h]
      rw [e1]
      exact ⟨rfl, le_max_left _ _, le_max_right _ _,
        fun hr => max_le (by linarith) (le_of_lt h)⟩
    · intro h
      simp only [decayFn, if_neg h]

/-- Witness for C6 (amended) at a concrete well-formed state. -/
theorem c6_level_peak_invariant_witness :
    levelsWellFormed
      ((⟨[⟨"a", "Mic", false, false, false, 1, none, 0, 0⟩],
        none, none, WindowMode.Flyout, false⟩ :
          AppState).update_device_level "a" (1/2)) ∧
    levelsWellFormed
      ((⟨[⟨"a", "Mic", false, false, false, 1, none, 0, 0⟩],
        none, none, WindowMode.Flyout, false⟩ :
          AppState).decay_peak_holds (1/100)) :=
  ⟨(c6_level_peak_invariant _ "a" (1/2) (1/100)).1 (by decide),
   (c6_level_peak_invariant _ "a" (1/2) (1/100)).2.1 (by decide) (by norm_num)⟩

/-- C7: `VolumeController::set_volume` passes exactly
`level.clamp(0.0, 1.0)` to `SetMasterVolumeLevelScalar` (so a successful
call stores the clamped value on the endpoint), the clamped value always
lies in `[0, 1]`, and `AppState::update_device_volume` only ever writes
volumes in `[0, 1]`: every device of the updated state is either an
untouched device of the old state or carries the clamped volume. -/
theorem c7_volume_clamped (level : ℚ) (e : EndpointVolume) (s : AppState)
    (device_id : String) :
    (VolumeController.set_volume level e =
      setMasterVolumeLevelScalar (rustClamp level 0 1) e) ∧
    (e.setVolumeFails = false →
      ((VolumeController.set_volume level e).2.volume = rustClamp level 0 1 ∧
        0 ≤ (VolumeController.set_volume level e).2.volume ∧
        (VolumeController.set_volume level e).2.volume ≤ 1)) ∧
    (0 ≤ rustClamp level 0 1 ∧ rustClamp level 0 1 ≤ 1) ∧
    (∀ d ∈ (s.update_device_volume device_id level).devices,
      d ∈ s.devices ∨ (0 ≤ d.volume_level ∧ d.volume_level ≤ 1)) := by
  have hclamp : 0 ≤ rustClamp level 0 1 ∧ rustClamp level 0 1 ≤ 1 := by
    simp only [rustClamp]
    split_ifs <;> constructor <;> linarith
  refine ⟨rfl, ?_, hclamp, ?_⟩
  · intro hf
    have e1 : (VolumeController.set_volume level e).2.volume =
        rustClamp level 0 1 := by
      simp [VolumeController.set_volume, setMasterVolumeLevelScalar, hf]
    rw [e1]
    exact ⟨rfl, hclamp.1, hclamp.2⟩
  · intro d hd
    rcases mem_updateFirst hd with h | ⟨y, hy, rfl⟩
    · exact Or.inl h
    · exact Or.inr hclamp

/-- Witness for C7 at a concrete over-range volume. -/
theorem c7_volume_clamped_witness :
    (VolumeController.set_volume 2 ⟨false, 0, false, false, false⟩).2.volume =
      rustClamp 2 0 1 ∧
    0 ≤ (VolumeController.set_volume 2 ⟨false, 0, false, false, false⟩).2.volume ∧
    (VolumeController.set_volume 2 ⟨false, 0, false, false, false⟩).2.volume ≤ 1 :=
  (c7_volume_clamped 2 ⟨false, 0, false, false, false⟩
    ⟨[], none, none, WindowMode.Flyout, false⟩ "a").2.1 rfl

/-! ## Claim C10 -/

theorem get_default_device_eq_none (s : AppState) :
    s.get_default_device = none ↔
      ∀ d ∈ s.devices, ¬ s.default_device_id = some d.id := by
  unfold AppState.get_default_device
  cases h : s.default_device_id with
  | none => simp
  | some i =>
    rw [Option.some_bind, List.find?_eq_none]
    constructor
    · intro hf d hd heq
      have hne := hf d hd
      rw [Option.some.injEq] at heq
      simp [heq] at hne
    · intro hf d hd
      rw [beq_iff_eq]
      intro hid
      exact hf d hd (by rw [hid])

/-- Counterexample to C10 as stated: a default, unmuted device named
"No microphone" makes `get_tooltip` return "No microphone" even though an
element of `devices` matches `default_device_id`. -/
theorem c10_counterexample :
    (⟨[⟨"a", "No microphone", true, false, false, 1, none, 0, 0⟩],
        some "a", none, WindowMode.Flyout, false⟩ : AppState).get_tooltip =
      "No microphone" ∧
    ∃ d ∈ (⟨[⟨"a", "No microphone", true, false, false, 1, none, 0, 0⟩],
        some "a", none, WindowMode.Flyout, false⟩ : AppState).devices,
      (⟨[⟨"a", "No microphone", true, false, false, 1, none, 0, 0⟩],
        some "a", none, WindowMode.Flyout, false⟩ :
          AppState).default_device_id = some d.id := by
  constructor
  · rfl
  · exact ⟨_, List.mem_cons_self _ _, rfl⟩

/-- C10 (amended): `get_tooltip` returns "No microphone" whenever no
element of `devices` has an id equal to `default_device_id` (in
particular when the id is `None` or the list is empty); when a matching
element exists it returns the first matching device's name suffixed with
" (Muted)" iff that device is muted — a string that can itself equal
"No microphone" if a device bears that name; and `is_default_muted`
returns `false` whenever there is no default device in the list. -/
theorem c10_tooltip (s : AppState) :
    ((∀ d ∈ s.devices, ¬ s.default_device_id = some d.id) →
      s.get_tooltip = "No microphone" ∧ s.is_default_muted = false) ∧
    (∀ device, s.get_default_device = some device →
      s.get_tooltip =
        if device.is_muted then device.name ++ " (Muted)" else device.name) ∧
    (s.get_default_device = none ↔
      ∀ d ∈ s.devices, ¬ s.default_device_id = some d.id) ∧
    (s.get_default_device = none → s.is_default_muted = false) := by
  have key := get_default_device_eq_none s
  refine ⟨?_, ?_, key, ?_⟩
  · intro hnone
    have h : s.get_default_device = none := key.mpr hnone
    constructor
    · unfold AppState.get_tooltip
      rw [h]
    · unfold AppState.is_default_muted
      rw [h]
      rfl
  · intro device h
    unfold AppState.get_tooltip
    rw [h]
  · intro h
    unfold AppState.is_default_muted
    rw [h]
    rfl

/-- Witness for C10 (amended) at concrete states with and without a
matching default device. -/
theorem c10_tooltip_witness :
    (⟨[⟨"a", "Mic A", false, false, false, 1, none, 0, 0⟩],
        some "b", none, WindowMode.Flyout, false⟩ : AppState).get_tooltip =
      "No microphone" ∧
    (⟨[⟨"a", "Mic A", true, false, true, 1, none, 0, 0⟩],
        some "a", none, WindowMode.Flyout, false⟩ : AppState).get_tooltip =
      "Mic A (Muted)" := by
  constructor
  · exact ((c10_tooltip _).1 (by decide)).1
  · have h := (c10_tooltip
      (⟨[⟨"a", "Mic A", true, false, true, 1, none, 0, 0⟩],
        some "a", none, WindowMode.Flyout, false⟩ : AppState)).2.1
      ⟨"a", "Mic A", true, false, true, 1, none, 0, 0⟩ rfl
    simpa using h

/-! ## Flyout focus-loss debounce (`main.rs`, `MicManagerApp::update`)

The fields of `MicManagerApp` and `AppState` involved in the focus-loss
check are collected in one record: the current time in milliseconds
(`Instant::now()`), `app_state.flyout_visible`, `app_state.window_mode`,
`flyout_shown_at` and `focus_lost_at`.  The update loop and the tray /
flyout handlers that touch these fields become events of a transition
system; each event advances time by a nonnegative delta. -/

/-- Focus-relevant state of `MicManagerApp`. -/
structure FlyoutState where
  now : Nat
  visible : Bool
  mode : WindowMode
  shownAt : Option Nat
  lostAt : Option Nat
  deriving DecidableEq

/-- The grace-period test of `MicManagerApp::update`:
`flyout_shown_at.map(|t| t.elapsed() > 500ms).unwrap_or(true)`. -/
def graceElapsed (s : FlyoutState) : Bool :=
  (s.shownAt.map (fun t => decide (500 < s.now - t))).getD true

/-- The focus-loss check at the end of `MicManagerApp::update`: when the
flyout is visible in `Flyout` mode and the grace period has elapsed,
regained focus clears `focus_lost_at`; absent focus starts the timer if
unset and hides the flyout once focus has been absent for more than
200 ms. -/
def focusCheck (has_focus : Bool) (s : FlyoutState) : FlyoutState :=
  if s.visible && s.mode == WindowMode.Flyout then
    if graceElapsed s then
      if has_focus then { s with lostAt := none }
      else
        let s := if s.lostAt == none then { s with lostAt := some s.now } else s
        match s.lostAt with
        | some lost_at =>
          if 200 < s.now - lost_at then
            { s with shownAt := none, lostAt := none, visible := false }
          else s
        | none => s
    else s
  else s

/-- Events of the update loop that touch the focus-relevant state.  Each
carries the milliseconds elapsed since the previous event. -/
inductive UiEvent where
  | frame (delta : Nat) (has_focus : Bool)
  | trayLeftClick (delta : Nat)
  | toggleDock (delta : Nat)
  | flyoutClose (delta : Nat)
  deriving DecidableEq

/-- One step of the modelled update loop: `frame` runs the focus-loss
check; `trayLeftClick` is the tray handler that toggles the flyout and
resets both timestamps; `toggleDock` is `FlyoutAction::ToggleDock`;
`flyoutClose` is `FlyoutAction::Close` (`hide_flyout` only). -/
def step (e : UiEvent) (s : FlyoutState) : FlyoutState :=
  match e with
  | .frame delta has_focus => focusCheck has_focus { s with now := s.now + delta }
  | .trayLeftClick delta =>
    let s := { s with now := s.now + delta }
    if s.visible then { s with visible := false, shownAt := none, lostAt := none }
    else { s with visible := true, shownAt := some s.now, lostAt := none }
  | .toggleDock delta =>
    let s := { s with now := s.now + delta }
    { s with mode := match s.mode with
        | WindowMode.Flyout => WindowMode.Docked
        | WindowMode.Docked => WindowMode.Flyout }
  | .flyoutClose delta =>
    let s := { s with now := s.now + delta }
    { s with visible := false }

/-- Initial focus-relevant state: window starts hidden with no
timestamps, in the window mode loaded from preferences. -/
def initFlyoutState (m : WindowMode) : FlyoutState :=
  ⟨0, false, m, none, none⟩

/-- Run the update loop on a list of events. -/
def runUi (m : WindowMode) (evs : List UiEvent) : FlyoutState :=
  evs.foldl (fun s e => step e s) (initFlyoutState m)

/-! ## Claim C2 -/

/-- Reachability invariant: whenever `focus_lost_at` is set, the grace
period has already elapsed. -/
def lostImpliesGrace (s : FlyoutState) : Prop :=
  ∀ l, s.lostAt = some l → graceElapsed s = true

theorem graceElapsed_mono (s : FlyoutState) (delta : Nat)
    (h : graceElapsed s = true) :
    graceElapsed { s with now := s.now + delta } = true := by
  unfold graceElapsed at h ⊢
  cases hs : s.shownAt with
  | none => simp
  | some t =>
    rw [hs] at h
    simp only [Option.map_some', Option.getD_some, decide_eq_true_eq] at h ⊢
    omega

/-- Case-split characterisation of `focusCheck`: on an unset
`focus_lost_at` the timer is set to `now` and the immediately following
elapsed check compares against `now - now`. -/
theorem focusCheck_eq (has_focus : Bool) (s : FlyoutState) :
    focusCheck has_focus s =
      if s.visible && s.mode == WindowMode.Flyout then
        if graceElapsed s then
          if has_focus then { s with lostAt := none }
          else
            match s.lostAt with
            | none =>
              if 200 < s.now - s.now then
                { s with shownAt := none, lostAt := none, visible := false }
              else { s with lostAt := some s.now }
            | some lost_at =>
              if 200 < s.now - lost_at then
                { s with shownAt := none, lostAt := none, visible := false }
              else s
        else s
      else s := by
  obtain ⟨n, v, md, sh, lo⟩ := s
  cases lo with
  | none => rfl
  | some l => rfl

theorem focusCheck_lostImpliesGrace (has_focus : Bool) (s : FlyoutState)
    (h : lostImpliesGrace s) : lostImpliesGrace (focusCheck has_focus s) := by
  rw [focusCheck_eq]
  split
  · split
    · rename_i hgrace
      split
      · intro l hl; simp at hl
      · split
        · have h0 : ¬ (200 < s.now - s.now) := by omega
          rw [if_neg h0]
          intro l hl
          simpa [graceElapsed] using hgrace
        · split
          · intro l hl; simp at hl
          · exact h
    · exact h
  · exact h

theorem step_lostImpliesGrace (e : UiEvent) (s : FlyoutState)
    (h : lostImpliesGrace s) : lostImpliesGrace (step e s) := by
  cases e with
  | frame delta has_focus =>
    apply focusCheck_lostImpliesGrace
    intro l hl
    exact graceElapsed_mono s delta (h l hl)
  | trayLeftClick delta =>
    simp only [step]
    split
    · intro l hl; simp at hl
    · intro l hl; simp at hl
  | toggleDock delta =>
    intro l hl
    have := h l hl
    exact graceElapsed_mono s delta this
  | flyoutClose delta =>
    intro l hl
    have := h l hl
    exact graceElapsed_mono s delta this

theorem runUi_lostImpliesGrace (m : WindowMode) (evs : List UiEvent) :
    lostImpliesGrace (runUi m evs) := by
  suffices hgen : ∀ s : FlyoutState, lostImpliesGrace s →
      lostImpliesGrace (evs.foldl (fun s e => step e s) s) by
    apply hgen
    intro l hl
    simp [initFlyoutState] at hl
  induction evs with
  | nil => intro s hs; exact hs
  | cons e es ih =>
    intro s hs
    exact ih (step e s) (step_lostImpliesGrace e s hs)

/-- C2: the update loop hides a visible flyout through the focus check
only when the window mode is `Flyout`, the 500 ms grace period since
`flyout_shown_at` has elapsed (or `flyout_shown_at` is unset), focus is
absent, and `focus_lost_at` records a loss more than 200 ms old; and in
any reachable state, when focus is present again before the 200 ms
elapse, the check resets `focus_lost_at` to `None` and leaves the flyout
visible. -/
theorem c2_focus_loss_debounce (m : WindowMode) (evs : List UiEvent)
    (has_focus : Bool) (s : FlyoutState) (hs : s = runUi m evs) :
    (s.visible = true → (focusCheck has_focus s).visible = false →
      s.mode = WindowMode.Flyout ∧ graceElapsed s = true ∧
      has_focus = false ∧
      ∃ l, s.lostAt = some l ∧ 200 < s.now - l) ∧
    (s.visible = true → s.mode = WindowMode.Flyout → has_focus = true →
      ∀ l, s.lostAt = some l → s.now - l ≤ 200 →
      (focusCheck has_focus s).lostAt = none ∧
      (focusCheck has_focus s).visible = true) := by
  constructor
  · intro hvis hhide
    rw [focusCheck_eq] at hhide
    split at hhide
    · rename_i hcond
      rw [Bool.and_eq_true, beq_iff_eq] at hcond
      refine ⟨hcond.2, ?_⟩
      split at hhide
      · rename_i hgrace
        refine ⟨hgrace, ?_⟩
        split at hhide
        · rename_i hf
          rw [show ({ s with lostAt := none } : FlyoutState).visible =
            s.visible from rfl, hvis] at hhide
          exact absurd hhide (by simp)
        · rename_i hf
          refine ⟨Bool.not_eq_true has_focus ▸ hf, ?_⟩
          split at hhide
          · rename_i heq
            split at hhide
            · rename_i h200
              exact absurd h200 (by omega)
            · rw [show ({ s with lostAt := some s.now } : FlyoutState).visible =
                s.visible from rfl, hvis] at hhide
              exact absurd hhide (by simp)
          · rename_i lost_at heq
            split at hhide
            · rename_i h200
              exact ⟨lost_at, heq, h200⟩
            · rw [hvis] at hhide
              exact absurd hhide (by simp)
      · rw [hvis] at hhide
        exact absurd hhide (by simp)
    · rw [hvis] at hhide
      exact absurd hhide (by simp)
  · intro hvis hmode hfocus l hl hle
    have hgrace : graceElapsed s = true :=
      (hs ▸ runUi_lostImpliesGrace m evs) l hl
    rw [focusCheck_eq, hvis, hmode, hfocus, hgrace]
    simp

/-- Witness for C2: show the flyout, lose focus 600 ms later, and have
focus return immediately; the check clears the timer and keeps the
flyout visible. -/
theorem c2_focus_loss_debounce_witness :
    (focusCheck true
      (runUi WindowMode.Flyout
        [UiEvent.trayLeftClick 0, UiEvent.frame 600 false])).lostAt = none ∧
    (focusCheck true
      (runUi WindowMode.Flyout
        [UiEvent.trayLeftClick 0, UiEvent.frame 600 false])).visible = true :=
  (c2_focus_loss_debounce WindowMode.Flyout
      [UiEvent.trayLeftClick 0, UiEvent.frame 600 false] true _ rfl).2
    (by decide) (by decide) rfl 600 (by decide) (by decide)

/-! ## FFI layer (`mic-engine-ffi/src/lib.rs`)

Each exported function wraps its COM work in `panic::catch_unwind` and
`with_com`; that work is modelled as a `CallResult` oracle carrying the
value produced, the `AudioError` raised, or a caught panic.  The
thread-local `LAST_ERROR` cell is explicit state.  A nullable
`*const c_char` argument is `Option String` (`None` covering both null
and invalid UTF-8, which `parse_c_str` rejects alike). -/

/-- `ErrorCode` (`#[repr(i32)]`). -/
inductive ErrorCode where
  | Success
  | InvalidHandle
  | InvalidArgument
  | DeviceNotFound
  | ComError
  | JsonError
  | VolumeNotAvailable
  | Panic
  deriving DecidableEq

/-- The `i32` value of each `ErrorCode`. -/
def ErrorCode.toInt : ErrorCode → Int
  | .Success => 0
  | .InvalidHandle => -1
  | .InvalidArgument => -2
  | .DeviceNotFound => -3
  | .ComError => -4
  | .JsonError => -5
  | .VolumeNotAvailable => -6
  | .Panic => -99

/-- `impl From<AudioError> for ErrorCode`. -/
def ErrorCode.fromAudioError : AudioError → ErrorCode
  | AudioError.DeviceNotFound _ => ErrorCode.DeviceNotFound
  | AudioError.ComInitFailed => ErrorCode.ComError
  | AudioError.EnumerationFailed => ErrorCode.ComError
  | AudioError.SetDefaultFailed => ErrorCode.ComError
  | AudioError.VolumeNotAvailable => ErrorCode.VolumeNotAvailable
  | AudioError.WindowsError => ErrorCode.ComError
  | _ => ErrorCode.ComError

/-- The `thiserror` display string of an `AudioError` (source-error
payloads dropped with the rest of the HRESULT modelling). -/
def AudioError.toMessage : AudioError → String
  | AudioError.DeviceNotFound device_id => "Device not found: " ++ device_id
  | AudioError.NoDefaultDevice => "No default device available"
  | AudioError.ComInitFailed => "COM initialization failed"
  | AudioError.EnumerationFailed => "Failed to enumerate devices"
  | AudioError.SetDefaultFailed => "Failed to set default device"
  | AudioError.VolumeNotAvailable => "Volume control not available for device"
  | AudioError.MeterNotAvailable => "Level meter not available for device"
  | AudioError.WindowsError => "Windows API error"
  | AudioError.StringConversion msg => "String conversion error: " ++ msg

/-- The thread-local `LAST_ERROR` cell. -/
structure FfiState where
  lastError : Option (ErrorCode × String)
  deriving DecidableEq

/-- `set_last_error`. -/
def set_last_error (code : ErrorCode) (message : String) (_s : FfiState) :
    FfiState :=
  { lastError := some (code, message) }

/-- `clear_last_error`. -/
def clear_last_error (_s : FfiState) : FfiState :=
  { lastError := none }

/-- `mic_engine_last_error_code`. -/
def mic_engine_last_error_code (s : FfiState) : Int :=
  (s.lastError.map (fun p => p.1.toInt)).getD 0

/-- Outcome of the `catch_unwind`-wrapped COM work of one FFI call. -/
inductive CallResult (α : Type) where
  | ok (val : α)
  | err (e : AudioError)
  | panicked
  deriving DecidableEq

/-- Role decoding in `mic_engine_set_default_device`. -/
def roleFromU32 (role : Nat) : Option DeviceRole :=
  match role with
  | 0 => some DeviceRole.Console
  | 1 => some DeviceRole.Multimedia
  | 2 => some DeviceRole.Communications
  | _ => none

/-- `mic_engine_create`: the body only boxes the engine, so it can fail
only by panicking; a null handle is `none`. -/
def mic_engine_create (_config_json : Option String) (panics : Bool)
    (s : FfiState) : Option Unit × FfiState :=
  let s := clear_last_error s
  if panics then
    (none, set_last_error ErrorCode.Panic "Panic during engine creation" s)
  else (some (), s)

/-- `mic_engine_get_devices`. -/
def mic_engine_get_devices (com : CallResult String) (s : FfiState) :
    Option String × FfiState :=
  let s := clear_last_error s
  match com with
  | .ok json => (some json, s)
  | .err e =>
    (none, set_last_error (ErrorCode.fromAudioError e) e.toMessage s)
  | .panicked =>
    (none, set_last_error ErrorCode.Panic "Panic during device enumeration" s)

/-- `mic_engine_get_device`. -/
def mic_engine_get_device (device_id : Option String)
    (com : CallResult String) (s : FfiState) : Option String × FfiState :=
  let s := clear_last_error s
  match device_id with
  | none =>
    let e := AudioError.StringConversion "Invalid device ID"
    (none, set_last_error (ErrorCode.fromAudioError e) e.toMessage s)
  | some _ =>
    match com with
    | .ok json => (some json, s)
    | .err e =>
      (none, set_last_error (ErrorCode.fromAudioError e) e.toMessage s)
    | .panicked =>
      (none, set_last_error ErrorCode.Panic "Panic during device get" s)

/-- `mic_engine_set_default_device`. -/
def mic_engine_set_default_device (device_id : Option String) (role : Nat)
    (com : CallResult Unit) (s : FfiState) : Int × FfiState :=
  let s := clear_last_error s
  match device_id with
  | none =>
    (ErrorCode.InvalidArgument.toInt,
      set_last_error ErrorCode.InvalidArgument "Invalid device ID" s)
  | some _ =>
    match roleFromU32 role with
    | none =>
      (ErrorCode.InvalidArgument.toInt,
        set_last_error ErrorCode.InvalidArgument "Invalid role" s)
    | some _device_role =>
      match com with
      | .ok _ => (ErrorCode.Success.toInt, s)
      | .err e =>
        ((ErrorCode.fromAudioError e).toInt,
          set_last_error (ErrorCode.fromAudioError e) e.toMessage s)
      | .panicked =>
        (ErrorCode.Panic.toInt,
          set_last_error ErrorCode.Panic "Panic during set default device" s)

/-- `mic_engine_set_volume`. -/
def mic_engine_set_volume (device_id : Option String) (_volume : ℚ)
    (com : CallResult Unit) (s : FfiState) : Int × FfiState :=
  let s := clear_last_error s
  match device_id with
  | none =>
    (ErrorCode.InvalidArgument.toInt,
      set_last_error ErrorCode.InvalidArgument "Invalid device ID" s)
  | some _ =>
    match com with
    | .ok _ => (ErrorCode.Success.toInt, s)
    | .err e =>
      ((ErrorCode.fromAudioError e).toInt,
        set_last_error (ErrorCode.fromAudioError e) e.toMessage s)
    | .panicked =>
      (ErrorCode.Panic.toInt,
        set_last_error ErrorCode.Panic "Panic during set volume" s)

/-- `mic_engine_toggle_mute`. -/
def mic_engine_toggle_mute (device_id : Option String)
    (com : CallResult String) (s : FfiState) : Option String × FfiState :=
  let s := clear_last_error s
  match device_id with
  | none =>
    let e := AudioError.StringConversion "Invalid device ID"
    (none, set_last_error (ErrorCode.fromAudioError e) e.toMessage s)
  | some _ =>
    match com with
    | .ok json => (some json, s)
    | .err e =>
      (none, set_last_error (ErrorCode.fromAudioError e) e.toMessage s)
    | .panicked =>
      (none, set_last_error ErrorCode.Panic "Panic during toggle mute" s)

/-- `mic_engine_set_mute`. -/
def mic_engine_set_mute (device_id : Option String) (_muted : Int)
    (com : CallResult Unit) (s : FfiState) : Int × FfiState :=
  let s := clear_last_error s
  match device_id with
  | none =>
    (ErrorCode.InvalidArgument.toInt,
      set_last_error ErrorCode.InvalidArgument "Invalid device ID" s)
  | some _ =>
    match com with
    | .ok _ => (ErrorCode.Success.toInt, s)
    | .err e =>
      ((ErrorCode.fromAudioError e).toInt,
        set_last_error (ErrorCode.fromAudioError e) e.toMessage s)
    | .panicked =>
      (ErrorCode.Panic.toInt,
        set_last_error ErrorCode.Panic "Panic during set mute" s)

/-! ## Claim C9 -/

theorem fromAudioError_toInt_neg (e : AudioError) :
    (ErrorCode.fromAudioError e).toInt < 0 := by
  cases e <;> simp [ErrorCode.fromAudioError, ErrorCode.toInt]

theorem fromAudioError_toInt_ne_zero (e : AudioError) :
    (ErrorCode.fromAudioError e).toInt ≠ 0 := by
  cases e <;> simp [ErrorCode.fromAudioError, ErrorCode.toInt]

/-- C9: every exported FFI operation clears the thread-local last error
on entry (its result and final error state do not depend on the incoming
error state); whenever it returns its failure value (a null pointer or a
negative code) `mic_engine_last_error_code` reports the stored non-zero
code (equal to the returned code for the integer-returning operations);
and after a successful completion `mic_engine_last_error_code` returns
0. -/
theorem c9_ffi_error_discipline (config_json device_id : Option String)
    (panics : Bool) (comS : CallResult String) (comU : CallResult Unit)
    (role : Nat) (volume : ℚ) (muted : Int) (st s₁ s₂ : FfiState) :
    (mic_engine_create config_json panics s₁ =
        mic_engine_create config_json panics s₂ ∧
      ((mic_engine_create config_json panics st).1 = none →
        mic_engine_last_error_code
          (mic_engine_create config_json panics st).2 ≠ 0) ∧
      ((mic_engine_create config_json panics st).1 ≠ none →
        mic_engine_last_error_code
          (mic_engine_create config_json panics st).2 = 0)) ∧
    (mic_engine_get_devices comS s₁ = mic_engine_get_devices comS s₂ ∧
      ((mic_engine_get_devices comS st).1 = none →
        mic_engine_last_error_code (mic_engine_get_devices comS st).2 ≠ 0) ∧
      ((mic_engine_get_devices comS st).1 ≠ none →
        mic_engine_last_error_code (mic_engine_get_devices comS st).2 = 0)) ∧
    (mic_engine_get_device device_id comS s₁ =
        mic_engine_get_device device_id comS s₂ ∧
      ((mic_engine_get_device device_id comS st).1 = none →
        mic_engine_last_error_code
          (mic_engine_get_device device_id comS st).2 ≠ 0) ∧
      ((mic_engine_get_device device_id comS st).1 ≠ none →
        mic_engine_last_error_code
          (mic_engine_get_device device_id comS st).2 = 0)) ∧
    (mic_engine_set_default_device device_id role comU s₁ =
        mic_engine_set_default_device device_id role comU s₂ ∧
      ((mic_engine_set_default_device device_id role comU st).1 < 0 →
        (mic_engine_set_default_device device_id role comU st).1 ≠ 0 ∧
        mic_engine_last_error_code
            (mic_engine_set_default_device device_id role comU st).2 =
          (mic_engine_set_default_device device_id role comU st).1) ∧
      (0 ≤ (mic_engine_set_default_device device_id role comU st).1 →
        (mic_engine_set_default_device device_id role comU st).1 = 0 ∧
        mic_engine_last_error_code
          (mic_engine_set_default_device device_id role comU st).2 = 0)) ∧
    (mic_engine_set_volume device_id volume comU s₁ =
        mic_engine_set_volume device_id volume comU s₂ ∧
      ((mic_engine_set_volume device_id volume comU st).1 < 0 →
        (mic_engine_set_volume device_id volume comU st).1 ≠ 0 ∧
        mic_engine_last_error_code
            (mic_engine_set_volume device_id volume comU st).2 =
          (mic_engine_set_volume device_id volume comU st).1) ∧
      (0 ≤ (mic_engine_set_volume device_id volume comU st).1 →
        (mic_engine_set_volume device_id volume comU st).1 = 0 ∧
        mic_engine_last_error_code
          (mic_engine_set_volume device_id volume comU st).2 = 0)) ∧
    (mic_engine_toggle_mute device_id comS s₁ =
        mic_engine_toggle_mute device_id comS s₂ ∧
      ((mic_engine_toggle_mute device_id comS st).1 = none →
        mic_engine_last_error_code
          (mic_engine_toggle_mute device_id comS st).2 ≠ 0) ∧
      ((mic_engine_toggle_mute device_id comS st).1 ≠ none →
        mic_engine_last_error_code
          (mic_engine_toggle_mute device_id comS st).2 = 0)) ∧
    (mic_engine_set_mute device_id muted comU s₁ =
        mic_engine_set_mute device_id muted comU s₂ ∧
      ((mic_engine_set_mute device_id muted comU st).1 < 0 →
        (mic_engine_set_mute device_id muted comU st).1 ≠ 0 ∧
        mic_engine_last_error_code
            (mic_engine_set_mute device_id muted comU st).2 =
          (mic_engine_set_mute device_id muted comU st).1) ∧
      (0 ≤ (mic_engine_set_mute device_id muted comU st).1 →
        (mic_engine_set_mute device_id muted comU st).1 = 0 ∧
        mic_engine_last_error_code
          (mic_engine_set_mute device_id muted comU st).2 = 0)) := by
  refine ⟨⟨?_, ?_, ?_⟩, ⟨?_, ?_, ?_⟩, ⟨?_, ?_, ?_⟩, ⟨?_, ?_, ?_⟩,
    ⟨?_, ?_, ?_⟩, ⟨?_, ?_, ?_⟩, ⟨?_, ?_, ?_⟩⟩
  · cases panics <;> rfl
  · intro hfail
    cases panics with
    | true => exact (by decide : (-99 : Int) ≠ 0)
    | false => exact Option.noConfusion hfail
  · intro hok
    cases panics with
    | true => exact absurd rfl hok
    | false => rfl
  · cases comS <;> rfl
  · intro hfail
    cases comS with
    | ok json => exact Option.noConfusion hfail
    | err e => exact fromAudioError_toInt_ne_zero e
    | panicked => exact (by decide : (-99 : Int) ≠ 0)
  · intro hok
    cases comS with
    | ok json => rfl
    | err e => exact absurd rfl hok
    | panicked => exact absurd rfl hok
  · cases device_id <;> cases comS <;> rfl
  · intro hfail
    cases device_id with
    | none => exact (by decide : (-4 : Int) ≠ 0)
    | some i =>
      cases comS with
      | ok json => exact Option.noConfusion hfail
      | err e => exact fromAudioError_toInt_ne_zero e
      | panicked => exact (by decide : (-99 : Int) ≠ 0)
  · intro hok
    cases device_id with
    | none => exact absurd rfl hok
    | some i =>
      cases comS with
      | ok json => rfl
      | err e => exact absurd rfl hok
      | panicked => exact absurd rfl hok
  · cases device_id with
    | none => rfl
    | some i => cases hr : roleFromU32 role <;> cases comU <;> rfl
  · intro hfail
    cases device_id with
    | none =>
      simp only [mic_engine_set_default_device] at hfail ⊢
      exact ⟨by decide, rfl⟩
    | some i =>
      cases hr : roleFromU32 role with
      | none =>
        simp only [mic_engine_set_default_device, hr] at hfail ⊢
        exact ⟨by decide, rfl⟩
      | some r =>
        cases comU with
        | ok v =>
          simp only [mic_engine_set_default_device, hr] at hfail
          exact absurd hfail (by decide)
        | err e =>
          simp only [mic_engine_set_default_device, hr] at hfail ⊢
          exact ⟨fromAudioError_toInt_ne_zero e, rfl⟩
        | panicked =>
          simp only [mic_engine_set_default_device, hr] at hfail ⊢
          exact ⟨by decide, rfl⟩
  · intro hok
    cases device_id with
    | none =>
      simp only [mic_engine_set_default_device] at hok
      exact absurd hok (by decide)
    | some i =>
      cases hr : roleFromU32 role with
      | none =>
        simp only [mic_engine_set_default_device, hr] at hok
        exact absurd hok (by decide)
      | some r =>
        cases comU with
        | ok v =>
          simp only [mic_engine_set_default_device, hr]
          exact ⟨rfl, rfl⟩
        | err e =>
          simp only [mic_engine_set_default_device, hr] at hok
          exact absurd hok (not_le.mpr (fromAudioError_toInt_neg e))
        | panicked =>
          simp only [mic_engine_set_default_device, hr] at hok
          exact absurd hok (by decide)
  · cases device_id <;> cases comU <;> rfl
  · intro hfail
    cases device_id with
    | none => exact ⟨(by decide : (-2 : Int) ≠ 0), rfl⟩
    | some i =>
      cases comU with
      | ok v => exact absurd hfail (by decide : ¬ (0 : Int) < 0)
      | err e => exact ⟨fromAudioError_toInt_ne_zero e, rfl⟩
      | panicked => exact ⟨(by decide : (-99 : Int) ≠ 0), rfl⟩
  · intro hok
    cases device_id with
    | none => exact absurd hok (by decide : ¬ (0 : Int) ≤ (-2 : Int))
    | some i =>
      cases comU with
      | ok v => exact ⟨rfl, rfl⟩
      | err e => exact absurd hok (not_le.mpr (fromAudioError_toInt_neg e))
      | panicked => exact absurd hok (by decide : ¬ (0 : Int) ≤ (-99 : Int))
  · cases device_id <;> cases comS <;> rfl
  · intro hfail
    cases device_id with
    | none => exact (by decide : (-4 : Int) ≠ 0)
    | some i =>
      cases comS with
      | ok json => exact Option.noConfusion hfail
      | err e => exact fromAudioError_toInt_ne_zero e
      | panicked => exact (by decide : (-99 : Int) ≠ 0)
  · intro hok
    cases device_id with
    | none => exact absurd rfl hok
    | some i =>
      cases comS with
      | ok json => rfl
      | err e => exact absurd rfl hok
      | panicked => exact absurd rfl hok
  · cases device_id <;> cases comU <;> rfl
  · intro hfail
    cases device_id with
    | none => exact ⟨(by decide : (-2 : Int) ≠ 0), rfl⟩
    | some i =>
      cases comU with
      | ok v => exact absurd hfail (by decide : ¬ (0 : Int) < 0)
      | err e => exact ⟨fromAudioError_toInt_ne_zero e, rfl⟩
      | panicked => exact ⟨(by decide : (-99 : Int) ≠ 0), rfl⟩
  · intro hok
    cases device_id with
    | none => exact absurd hok (by decide : ¬ (0 : Int) ≤ (-2 : Int))
    | some i =>
      cases comU with
      | ok v => exact ⟨rfl, rfl⟩
      | err e => exact absurd hok (not_le.mpr (fromAudioError_toInt_neg e))
      | panicked => exact absurd hok (by decide : ¬ (0 : Int) ≤ (-99 : Int))

/-- Witness for C9: a successful `mic_engine_set_default_device` call
returns 0 and leaves `mic_engine_last_error_code` reporting 0, starting
from a state holding a stale error. -/
theorem c9_ffi_error_discipline_witness :
    (mic_engine_set_default_device (some "mic") 0 (CallResult.ok ())
      ⟨some (ErrorCode.ComError, "stale")⟩).1 = 0 ∧
    mic_engine_last_error_code
      (mic_engine_set_default_device (some "mic") 0 (CallResult.ok ())
        ⟨some (ErrorCode.ComError, "stale")⟩).2 = 0 :=
  (c9_ffi_error_discipline none (some "mic") false (CallResult.ok "")
      (CallResult.ok ()) 0 0 0
      ⟨some (ErrorCode.ComError, "stale")⟩ ⟨none⟩ ⟨none⟩).2.2.2.1.2.2
    (by decide)

end MicManager
